import Mathlib

/-!
Verification of the result-aggregation and comparison engine of
`scripts/summary.py` (the Verita results summarizer).

The Python source is shallowly embedded below: each `def` mirrors one
function (or one inline block) of `summary.py`, keeping the source's names
where Lean permits.  Machine integers are `Int`; quantities the source
computes by division are exact `Frac` fractions of machine integers;
Python `None` is `Option.none`; Python dicts keyed by strings are
association lists in insertion order.  Python's `sorted` is a stable sort
by key, embedded as `List.insertionSort` (also stable) on the
corresponding key relation.
-/

/-! ## Path helpers

`summary.py` line 43 computes `str(Path(cr).parent).replace("/", "-")`.
We model `pathlib.Path(...).parent` for the relative POSIX paths that
crate roots are (components split on `/`, empty components dropped as
`Path` normalization does, parent of a single component is `"."`).
-/

/-- Split a character list on a separator character. -/
def splitOnChar (sep : Char) : List Char → List (List Char)
  | [] => [[]]
  | c :: cs =>
    let r := splitOnChar sep cs
    if c = sep then [] :: r
    else
      match r with
      | [] => [[c]]
      | h :: t => (c :: h) :: t

/-- `str(Path(s).parent)` for a relative POSIX path `s`. -/
def pathParent (s : String) : String :=
  let comps := (splitOnChar '/' s.data).filter (· ≠ [])
  match comps with
  | [] => "."
  | [_] => "."
  | _ => ⟨List.intercalate ['/'] comps.dropLast⟩

/-- `str.replace("/", "-")` (single-character replacement). -/
def dashSlashes (s : String) : String :=
  ⟨s.data.map fun c => if c = '/' then '-' else c⟩

/-- `str(Path(cr).parent).replace("/", "-")` — summary.py line 43. -/
def transformedParent (cr : String) : String :=
  dashSlashes (pathParent cr)

/-- Python string slice `stem[n:]` (by characters). -/
def strDrop (s : String) (n : Nat) : String :=
  ⟨s.data.drop n⟩

/-- Python `stem.startswith(p)`. -/
def strStartsWith (s p : String) : Bool :=
  p.data.isPrefixOf s.data

/-! ## Crate-Root Resolver — summary.py lines 36-51 (inside `load_results`) -/

/--
The crate-root disambiguation block of `load_results` (lines 38-51):

    crate_root = None
    if len(crate_roots) > 1:
        if stem != proj_name and stem.startswith(proj_name + "-"):
            suffix = stem[len(proj_name) + 1:]
            for cr in crate_roots:
                parent = str(Path(cr).parent).replace("/", "-")
                if parent == suffix:
                    crate_root = cr
                    break
            if crate_root is None:
                crate_root = suffix
        else:
            crate_root = crate_roots[0]
-/
def resolveCrateRoot (crate_roots : List String) (proj_name stem : String) :
    Option String :=
  if 1 < crate_roots.length then
    if stem ≠ proj_name ∧ strStartsWith stem (proj_name ++ "-") then
      let suffix := strDrop stem (proj_name.length + 1)
      match crate_roots.find? (fun cr => transformedParent cr == suffix) with
      | some cr => some cr
      | none => some suffix
    else crate_roots[0]?
  else none

/-! ## Data model (normalized Project Record, as built by `load_results`) -/

/-- One flattened function-timing entry — summary.py lines 25-30. -/
structure FnRecord where
  name : String
  time_ms : Option Int
  time_us : Option Int
  succ : Option Bool
  deriving DecidableEq

/-- One normalized per-file record — summary.py lines 53-61.  Times are
modeled as integral milliseconds (exact for the values of this tool's
result files and of every claim). -/
structure ProjectRecord where
  name : String
  crate_root : Option String
  succ : Option Bool
  verified : Option Int
  errors : Option Int
  total_ms : Option Int
  functions : List FnRecord
  deriving DecidableEq

/-- A Run: the records of one directory, keyed by file stem, in load order. -/
abbrev Run := List (String × ProjectRecord)

/-! ## Result Loader nested-breakdown traversal — summary.py lines 21-30 -/

/-- One element of `times-ms.smt.smt-run-module-times[*].function-breakdown[*]`. -/
structure FnJson where
  function : Option String
  time : Option Int
  timeMicros : Option Int
  succ : Option Bool
  deriving DecidableEq

/-- One element of `times-ms.smt.smt-run-module-times`. -/
structure ModuleJson where
  functionBreakdown : Option (List FnJson)
  deriving DecidableEq

/-- The `times-ms.smt` object. -/
structure SmtJson where
  smtRunModuleTimes : Option (List ModuleJson)
  deriving DecidableEq

/-- The `times-ms` object. -/
structure TimesJson where
  smt : Option SmtJson
  total : Option Int
  deriving DecidableEq

/-- `times.get("smt", {}).get("smt-run-module-times", [])`: every absent
level defaults to empty, mirroring the `.get(..., default)` chain. -/
def smtModules (times : Option TimesJson) : List ModuleJson :=
  match times with
  | none => []
  | some t =>
    match t.smt with
    | none => []
    | some s => s.smtRunModuleTimes.getD []

/-- The nested flattening loop of `load_results` (lines 21-30). -/
def loadFunctions (times : Option TimesJson) : List FnRecord :=
  ((smtModules times).map fun m =>
    (m.functionBreakdown.getD []).map fun fn =>
      { name := fn.function.getD ""
        time_ms := fn.time
        time_us := fn.timeMicros
        succ := fn.succ : FnRecord }).flatten

/-! ## Exact fraction arithmetic

Python computes the derived time quantities with float division
(`old_ms / 1000`, `delta / old * 100`).  We embed those computations as
exact fractions of machine integers — a pair `num/den` with `den > 0` at
every use site (every constructor below keeps the sign in `num`).  On every
value arising from this program's data the rendered decimal agrees with
CPython's float formatting (both round to nearest, ties to even).
-/

/-- An exact fraction `num / den` of machine integers. -/
structure Frac where
  num : Int
  den : Int
  deriving DecidableEq

/-- `a - b` on fractions. -/
def Frac.sub (a b : Frac) : Frac :=
  ⟨a.num * b.den - b.num * a.den, a.den * b.den⟩

/-- `a / b` on fractions, keeping the denominator positive when `b ≠ 0`. -/
def Frac.div (a b : Frac) : Frac :=
  if b.num < 0 then ⟨-(a.num * b.den), a.den * -b.num⟩
  else ⟨a.num * b.den, a.den * b.num⟩

/-- `a * b` on fractions. -/
def Frac.mul (a b : Frac) : Frac :=
  ⟨a.num * b.num, a.den * b.den⟩

/-- Round `a / b` (nonnegative naturals) to the nearest natural, ties to
even — the rounding of CPython's fixed-point float formatting. -/
def rndHalfEven (a b : Nat) : Nat :=
  let w := a / b
  let r := a % b
  if 2 * r < b then w
  else if b < 2 * r then w + 1
  else if w % 2 = 0 then w else w + 1

/-- Left-pad a digit string with zeros to length `d`. -/
def padZeros (d : Nat) (s : String) : String :=
  ⟨List.replicate (d - s.data.length) '0' ++ s.data⟩

/-- `f"{(a/b):.df}"` for a nonnegative fraction `a / b`. -/
def fmtFixedNonneg (a b : Nat) (d : Nat) : String :=
  let n := rndHalfEven (a * 10 ^ d) b
  toString (n / 10 ^ d) ++ "." ++ padZeros d (toString (n % 10 ^ d))

/-- `f"{q:.df}"` (Python fixed-point formatting, sign included; `q.den > 0`
at every use site, so the sign of `q` is the sign of `q.num`). -/
def fmtFixed (q : Frac) (d : Nat) : String :=
  if q.num < 0 then "-" ++ fmtFixedNonneg (-q.num).toNat q.den.toNat d
  else fmtFixedNonneg q.num.toNat q.den.toNat d

/-- `_signed` — summary.py lines 147-148. -/
def signed (n : Int) : String :=
  if 0 ≤ n then "+" ++ toString n else toString n

/-- `_signed_f` — summary.py lines 151-152 (`f >= 0` on a fraction with
positive denominator is `0 ≤ num`). -/
def signed_f (q : Frac) (d : Nat) : String :=
  if 0 ≤ q.num then "+" ++ fmtFixed q d else fmtFixed q d

/-- `fmt_time` — summary.py lines 65-68 (`f"{ms / 1000:.2f} s"`). -/
def fmt_time (ms : Option Int) : String :=
  match ms with
  | none => "N/A"
  | some m => fmtFixed ⟨m, 1000⟩ 2 ++ " s"

/-- `fmt_status` — summary.py lines 71-74. -/
def fmt_status (succ : Option Bool) : String :=
  match succ with
  | none => "ERROR"
  | some true => "OK"
  | some false => "FAILED"

/-- `fmt_int_or_dash` — summary.py lines 77-80. -/
def fmt_int_or_dash (val : Option Int) : String :=
  match val with
  | none => "-"
  | some n => toString n

/-- `_cmp_int` — summary.py lines 155-162. -/
def cmp_int (old new : Option Int) : String :=
  let ov := fmt_int_or_dash old
  let nv := fmt_int_or_dash new
  match old, new with
  | some o, some n => ov ++ " → " ++ nv ++ " (" ++ signed (n - o) ++ ")"
  | _, _ => ov ++ " → " ++ nv

/-- `_cmp_time` — summary.py lines 165-173.  `old_s != 0` on a fraction
with positive denominator is `old_s.num ≠ 0`; the guarded branch never
divides by a zero `old_s`. -/
def cmp_time (old_ms new_ms : Option Int) : String :=
  match old_ms, new_ms with
  | some o, some n =>
    let old_s : Frac := ⟨o, 1000⟩
    let new_s : Frac := ⟨n, 1000⟩
    let delta_s := new_s.sub old_s
    let pct := if old_s.num ≠ 0 then (delta_s.div old_s).mul ⟨100, 1⟩ else ⟨0, 1⟩
    fmtFixed old_s 2 ++ " → " ++ fmtFixed new_s 2 ++ " s (" ++
      signed_f delta_s 2 ++ " s, " ++ signed_f pct 1 ++ "%)"
  | _, _ => fmt_time old_ms ++ " → " ++ fmt_time new_ms

/-! ## Entry ordering

Python's `sorted` with `key=lambda ...: (name, stem)` is a stable sort
under lexicographic tuple comparison; embedded as `List.insertionSort`
(also stable) on the same key relation.
-/

/-- Lexicographic `≤` on `(display_name, id)` pairs — Python tuple order. -/
def pairLe (a b : String × String) : Prop :=
  a.1 < b.1 ∨ (a.1 = b.1 ∧ a.2 ≤ b.2)

instance : DecidableRel pairLe := fun a b =>
  inferInstanceAs (Decidable (a.1 < b.1 ∨ (a.1 = b.1 ∧ a.2 ≤ b.2)))

theorem pairLe_total (a b : String × String) : pairLe a b ∨ pairLe b a := by
  rcases lt_trichotomy a.1 b.1 with h | h | h
  · exact Or.inl (Or.inl h)
  · rcases le_total a.2 b.2 with h2 | h2
    · exact Or.inl (Or.inr ⟨h, h2⟩)
    · exact Or.inr (Or.inr ⟨h.symm, h2⟩)
  · exact Or.inr (Or.inl h)

theorem pairLe_trans (a b c : String × String) :
    pairLe a b → pairLe b c → pairLe a c := by
  rintro (h | ⟨he, h2⟩) (h' | ⟨he', h2'⟩)
  · exact Or.inl (lt_trans h h')
  · exact Or.inl (he' ▸ h)
  · exact Or.inl (he ▸ h')
  · exact Or.inr ⟨he.trans he', le_trans h2 h2'⟩

/-- The sort key relation of `sorted_entries` (summary.py line 85):
`key=lambda kv: (kv[1]["name"], kv[0])`. -/
def entryLe (a b : String × ProjectRecord) : Prop :=
  pairLe (a.2.name, a.1) (b.2.name, b.1)

instance : DecidableRel entryLe := fun a b =>
  inferInstanceAs (Decidable (pairLe (a.2.name, a.1) (b.2.name, b.1)))

/-- `sorted_entries` — summary.py lines 83-85. -/
def sorted_entries (results : Run) : Run :=
  List.insertionSort entryLe results

/-! ## Comparator — summary.py lines 176-254 -/

/-- `(old_results.get(s) or new_results.get(s))["name"]` — the display name
used as sort key (lines 179 and 182-183).  Both sides absent cannot occur
for a stem of the merged set; it defaults to `""`. -/
def getName (oldR newR : Run) (s : String) : String :=
  match oldR.lookup s with
  | some r => r.name
  | none =>
    match newR.lookup s with
    | some r => r.name
    | none => ""

/-- Key relation of the comparison sort (lines 177-180):
`key=lambda s: ((old_results.get(s) or new_results.get(s))["name"], s)`. -/
def stemLe (oldR newR : Run) (s t : String) : Prop :=
  pairLe (getName oldR newR s, s) (getName oldR newR t, t)

instance (oldR newR : Run) : DecidableRel (stemLe oldR newR) := fun s t =>
  inferInstanceAs
    (Decidable (pairLe (getName oldR newR s, s) (getName oldR newR t, t)))

/-- `sorted(set(old_results.keys()) | set(new_results.keys()), key=...)`
(lines 177-180).  The set union is embedded as `dedup` of the concatenated
key lists; since the sort key `(name, stem)` is injective in `stem` and the
key order is total, the sorted output does not depend on the enumeration
order of the Python set. -/
def allStems (oldR newR : Run) : List String :=
  List.insertionSort (stemLe oldR newR)
    ((oldR.map Prod.fst ++ newR.map Prod.fst).dedup)

/-- One row of the comparison summary table, before column alignment
(the tuple appended at line 211). -/
structure CompareRow where
  name : String
  crate_root : Option String
  status : String
  ver : String
  err : String
  time : String
  deriving DecidableEq

/-- The per-stem row computation of `print_comparison_summary`
(lines 187-211).  The `none, none` case is unreachable for stems of
`allStems` (Python would raise there); it yields a blank row. -/
def compareRow (oldR newR : Run) (stem : String) : CompareRow :=
  let old := oldR.lookup stem
  let new := newR.lookup stem
  let name := getName oldR newR stem
  let crate_root := (old <|> new).bind (·.crate_root)
  match old, new with
  | none, some n =>
    { name := name, crate_root := crate_root, status := "(new)"
      ver := fmt_int_or_dash n.verified, err := fmt_int_or_dash n.errors
      time := fmt_time n.total_ms }
  | some o, none =>
    { name := name, crate_root := crate_root, status := "(removed)"
      ver := fmt_int_or_dash o.verified, err := fmt_int_or_dash o.errors
      time := fmt_time o.total_ms }
  | some o, some n =>
    let old_st := fmt_status o.succ
    let new_st := fmt_status n.succ
    { name := name, crate_root := crate_root
      status := if old_st = new_st then old_st else old_st ++ " → " ++ new_st
      ver := cmp_int o.verified n.verified
      err := cmp_int o.errors n.errors
      time := cmp_time o.total_ms n.total_ms }
  | none, none =>
    { name := name, crate_root := crate_root, status := ""
      ver := "", err := "", time := "" }

/-- All rows of the comparison summary, in rendered order (lines 187-211). -/
def comparisonRows (oldR newR : Run) : List CompareRow :=
  (allStems oldR newR).map (compareRow oldR newR)

/-! ## Top-5 slowest functions — summary.py lines 125-142 and 257-325 -/

/-- Descending-time ranking relation: `key=lambda f: f["time_ms"] or 0,
reverse=True` (lines 137 and 276-277).  Python's falsy `or 0` coincides
with `getD 0` on integer times. -/
def fnTimeGe (f g : FnRecord) : Prop :=
  g.time_ms.getD 0 ≤ f.time_ms.getD 0

instance : DecidableRel fnTimeGe := fun f g =>
  inferInstanceAs (Decidable (g.time_ms.getD 0 ≤ f.time_ms.getD 0))

/-- `sorted(fns, key=lambda f: f["time_ms"] or 0, reverse=True)[:5]`.
CPython's reverse stable sort keeps the original order of equal keys,
as `insertionSort` on the `≥`-by-key relation does. -/
def top5fns (fns : List FnRecord) : List FnRecord :=
  (List.insertionSort fnTimeGe fns).take 5

/-- `{fn["name"]: fn for fn in functions}[n]` — a Python dict comprehension
keeps the *last* entry for a duplicated name (lines 273-274). -/
def lastLookup (fns : List FnRecord) (n : String) : Option FnRecord :=
  fns.foldl (fun acc f => if f.name = n then some f else acc) none

/-- The seen-set union loop over `old_top5 + new_top5` (lines 280-285):
deduplicated names preserving first-seen, old-side-first order. -/
def unionNames (old_top5 new_top5 : List FnRecord) : List String :=
  (old_top5 ++ new_top5).foldl
    (fun acc fn => if fn.name ∈ acc then acc else acc ++ [fn.name]) []

/-- The per-function row of the top-5 comparison (lines 306-321):
old-side string, new-side string, change string. -/
def fnRowStrings (oldFns newFns : List FnRecord) (n : String) :
    String × String × String :=
  let old_fn := lastLookup oldFns n
  let new_fn := lastLookup newFns n
  let old_t := old_fn.bind (·.time_ms)
  let new_t := new_fn.bind (·.time_ms)
  let old_str :=
    match old_fn, old_t with
    | some _, some t => toString t ++ " ms"
    | none, _ => "(new)"
    | some _, none => "N/A"
  let new_str :=
    match new_fn, new_t with
    | some _, some t => toString t ++ " ms"
    | none, _ => "(gone)"
    | some _, none => "N/A"
  let change :=
    match old_t, new_t with
    | some ot, some nt =>
      let delta := nt - ot
      let pct := if ot ≠ 0 then (Frac.div ⟨delta, 1⟩ ⟨ot, 1⟩).mul ⟨100, 1⟩
                 else (⟨0, 1⟩ : Frac)
      signed delta ++ " ms (" ++ signed_f pct 1 ++ "%)"
    | _, _ => ""
  (old_str, new_str, change)

/-- One project's block of the top-5 comparison (lines 266-325): the
unioned names, each with its row strings; an empty list stands for the
"(no timing data available)" message. -/
def top5CompBlock (old new : Option ProjectRecord) :
    List (String × String × String × String) :=
  let oldFns := match old with | some o => o.functions | none => []
  let newFns := match new with | some n => n.functions | none => []
  (unionNames (top5fns oldFns) (top5fns newFns)).map fun n =>
    (n, fnRowStrings oldFns newFns n)

/-- All blocks of `print_top5_comparison` (lines 257-325), in rendered
order: one per merged stem, labeled with the display name. -/
def top5ComparisonBlocks (oldR newR : Run) :
    List (String × List (String × String × String × String)) :=
  (allStems oldR newR).map fun s =>
    (getName oldR newR s, top5CompBlock (oldR.lookup s) (newR.lookup s))

/-- One project's block of `print_top5_single` (lines 131-142): the display
name with the ranked top-5 entries as (time, function name); an empty list
stands for the "(no timing data available)" message. -/
def top5SingleBlocks (results : Run) : List (String × List (Option Int × String)) :=
  (sorted_entries results).map fun kv =>
    (kv.2.name, (top5fns kv.2.functions).map fun fn => (fn.time_ms, fn.name))

/-! ## Main dispatch — summary.py lines 356-372

The two report modes are modeled at section granularity: each printed
section becomes one `OutSection` carrying the data the corresponding
`print_*` function renders (column alignment is pure formatting on top of
these rows and is not modeled).
-/

/-- One row of the single-run summary table (lines 111-120). -/
structure SingleRow where
  name : String
  crate_root : Option String
  status : String
  ver : String
  err : String
  time : String
  deriving DecidableEq

/-- The rows of `print_single_summary` (lines 90-122), in rendered order. -/
def singleRows (results : Run) : List SingleRow :=
  (sorted_entries results).map fun kv =>
    { name := kv.2.name
      crate_root := kv.2.crate_root
      status := fmt_status kv.2.succ
      ver := fmt_int_or_dash kv.2.verified
      err := fmt_int_or_dash kv.2.errors
      time := fmt_time kv.2.total_ms }

/-- A printed output section of `main`. -/
inductive OutSection where
  | noFilesMsg (msg : String)
  | projectSummary (rows : List SingleRow)
  | top5Single (blocks : List (String × List (Option Int × String)))
  | comparisonSummary (rows : List CompareRow)
  | top5Comparison (blocks : List (String × List (String × String × String × String)))
  deriving DecidableEq

/-- Single-directory mode of `main` (lines 356-362). -/
def mainSingle (dir : String) (results : Run) : List OutSection :=
  if results.isEmpty then
    [.noFilesMsg ("No JSON files found in " ++ dir)]
  else
    [.projectSummary (singleRows results), .top5Single (top5SingleBlocks results)]

/-- Two-directory comparison mode of `main` (lines 363-370): the no-files
message appears only when *both* directories yielded no records. -/
def mainCompare (oldR newR : Run) : List OutSection :=
  if oldR.isEmpty && newR.isEmpty then
    [.noFilesMsg "No JSON files found in either directory"]
  else
    [.comparisonSummary (comparisonRows oldR newR),
     .top5Comparison (top5ComparisonBlocks oldR newR)]

/-- True when some section of the output is a no-files message. -/
def hasNoFilesMsg (secs : List OutSection) : Bool :=
  secs.any fun s =>
    match s with
    | .noFilesMsg _ => true
    | _ => false

/-! ## Claims -/

/-- C1 counterexample: the claim's second resolution fails on the code.
For roots `["a/src", "a/tools/x"]` and project name `"a"`, stem `"a"` does
resolve to `"a/src"`, but stem `"a-tools-x"` does not resolve to
`"a/tools/x"`: its stripped suffix `"tools-x"` matches no root's
dash-transformed parent (`"a"`, `"a-tools"`), so the resolver falls back to
the raw suffix. -/
theorem resolver_dashed_suffix_cex :
    ¬(resolveCrateRoot ["a/src", "a/tools/x"] "a" "a" = some "a/src" ∧
      resolveCrateRoot ["a/src", "a/tools/x"] "a" "a-tools-x" = some "a/tools/x") := by
  decide

/-- C1 (amended): stem `"a"` resolves to `"a/src"`; stem `"a-tools-x"`
resolves to the raw fallback suffix `"tools-x"` (the transformed parents of
the two roots are `"a"` and `"a-tools"`, neither equal to `"tools-x"`); the
stem that resolves to `"a/tools/x"` is `"a-a-tools"`. -/
theorem resolver_dashed_suffix_amended :
    resolveCrateRoot ["a/src", "a/tools/x"] "a" "a" = some "a/src" ∧
      resolveCrateRoot ["a/src", "a/tools/x"] "a" "a-tools-x" = some "tools-x" ∧
      transformedParent "a/src" = "a" ∧
      transformedParent "a/tools/x" = "a-tools" ∧
      resolveCrateRoot ["a/src", "a/tools/x"] "a" "a-a-tools" = some "a/tools/x" := by
  decide

/-- C5: for project `"p2"` with roots `["p2/src", "p2/lib"]`, the stem
`"p2-src"` strips to suffix `"src"`; both roots' transformed parents are
`"p2"`, so no root matches and the resolver returns the raw suffix `"src"`
as a lossy label (and, being a total function, never raises). -/
theorem resolver_fallback_raw_suffix :
    resolveCrateRoot ["p2/src", "p2/lib"] "p2" "p2-src" = some "src" ∧
      transformedParent "p2/src" = "p2" ∧ transformedParent "p2/lib" = "p2" := by
  decide

/-- C8: a project declaring at most one crate root always resolves
`crate_root` to `none`, regardless of the file stem. -/
theorem resolver_single_root_none (crate_roots : List String) (proj_name stem : String)
    (h : crate_roots.length ≤ 1) :
    resolveCrateRoot crate_roots proj_name stem = none := by
  unfold resolveCrateRoot
  rw [if_neg (by omega)]

/-- C8 witness at a concrete single-root project. -/
theorem resolver_single_root_none_witness :
    (["only/root"] : List String).length ≤ 1 ∧
      resolveCrateRoot ["only/root"] "p" "p-x" = none :=
  ⟨by decide, resolver_single_root_none ["only/root"] "p" "p-x" (by decide)⟩

/-- C10: for a multi-root project, a stem that neither equals the project
name nor starts with `<project-name>-` resolves to the first declared crate
root — the same result as an exact name match. -/
theorem resolver_unprefixed_stem_first_root (crate_roots : List String)
    (proj_name stem : String) (h1 : 1 < crate_roots.length)
    (h2 : stem ≠ proj_name)
    (h3 : strStartsWith stem (proj_name ++ "-") = false) :
    resolveCrateRoot crate_roots proj_name stem = crate_roots[0]? ∧
      resolveCrateRoot crate_roots proj_name proj_name = crate_roots[0]? := by
  constructor
  · unfold resolveCrateRoot
    rw [if_pos h1, if_neg]
    rintro ⟨-, hb⟩
    rw [h3] at hb
    exact Bool.false_ne_true hb
  · unfold resolveCrateRoot
    rw [if_pos h1, if_neg]
    rintro ⟨hne, -⟩
    exact hne rfl

/-- C10 witness at a concrete two-root project and unrelated stem. -/
theorem resolver_unprefixed_witness :
    1 < (["p/a", "p/b"] : List String).length ∧ ("zzz" : String) ≠ "p" ∧
      strStartsWith "zzz" ("p" ++ "-") = false ∧
      (resolveCrateRoot ["p/a", "p/b"] "p" "zzz" = (["p/a", "p/b"] : List String)[0]? ∧
        resolveCrateRoot ["p/a", "p/b"] "p" "p" = (["p/a", "p/b"] : List String)[0]?) :=
  ⟨by decide, by decide, by decide,
    resolver_unprefixed_stem_first_root ["p/a", "p/b"] "p" "zzz" (by decide) (by decide)
      (by decide)⟩

/-- C9: the flattened `functions` sequence is empty exactly when every
module's `function-breakdown` list is empty or absent (and absence of any
nesting level yields the empty list rather than an error, `loadFunctions`
being total). -/
theorem functions_empty_iff_breakdowns_empty (times : Option TimesJson) :
    loadFunctions times = [] ↔
      ∀ m ∈ smtModules times, m.functionBreakdown.getD [] = [] := by
  simp [loadFunctions, List.flatten_eq_nil_iff, List.map_eq_nil_iff]

/-- C3 counterexample: at old = 0 ms, new = 500 ms the comparison renders
`"0.00 → 0.50 s (+0.50 s, +0.0%)"`.  Its percentage component — the
`_signed_f(pct, 1) + "%"` piece of the f-string — is `"+0.0%"`, not the
claimed `"0.0%"` (`_signed_f` prefixes `+` to every nonnegative value). -/
theorem time_pct_zero_old_cex :
    signed_f ⟨0, 1⟩ 1 ++ "%" ≠ "0.0%" ∧
      cmp_time (some 0) (some 500) = "0.00 → 0.50 s (+0.50 s, +0.0%)" := by
  decide

/-- C3 (amended): when both times are present and old is exactly 0 ms the
comparison never divides by zero — the percentage is defined to be 0 and
renders as the signed component `"+0.0%"`; in particular old = 0 ms,
new = 500 ms renders `"0.00 → 0.50 s (+0.50 s, +0.0%)"`. -/
theorem time_pct_zero_old_amended :
    (∀ n : Int, cmp_time (some 0) (some n) =
      fmtFixed ⟨0, 1000⟩ 2 ++ " → " ++ fmtFixed ⟨n, 1000⟩ 2 ++ " s (" ++
        signed_f (Frac.sub ⟨n, 1000⟩ ⟨0, 1000⟩) 2 ++ " s, " ++
        signed_f ⟨0, 1⟩ 1 ++ "%)") ∧
      signed_f ⟨0, 1⟩ 1 = "+0.0" ∧
      cmp_time (some 0) (some 500) = "0.00 → 0.50 s (+0.50 s, +0.0%)" :=
  ⟨fun _ => rfl, by decide, by decide⟩

/-- C4: the concrete top-5 comparison of the claim.  Each side is ranked by
time descending (missing time ranks as 0), the union of the top-5 name sets
keeps old-then-new first-seen order `["A", "B", "C"]`; `A` renders
`"(gone)"` on the new side, `C` renders `"(new)"` on the old side, `B`
renders `"+5 ms (+5.6%)"`, and a present function with no time renders
`"N/A"`, distinct from `"(new)"`/`"(gone)"`. -/
theorem top5_union_concrete :
    unionNames
        (top5fns [⟨"A", some 100, none, none⟩, ⟨"B", some 90, none, none⟩])
        (top5fns [⟨"B", some 95, none, none⟩, ⟨"C", some 80, none, none⟩]) =
      ["A", "B", "C"] ∧
    top5fns [⟨"B", some 90, none, none⟩, ⟨"A", some 100, none, none⟩] =
      [⟨"A", some 100, none, none⟩, ⟨"B", some 90, none, none⟩] ∧
    top5fns [⟨"N", none, none, none⟩, ⟨"A", some 100, none, none⟩] =
      [⟨"A", some 100, none, none⟩, ⟨"N", none, none, none⟩] ∧
    fnRowStrings [⟨"A", some 100, none, none⟩, ⟨"B", some 90, none, none⟩]
        [⟨"B", some 95, none, none⟩, ⟨"C", some 80, none, none⟩] "A" =
      ("100 ms", "(gone)", "") ∧
    fnRowStrings [⟨"A", some 100, none, none⟩, ⟨"B", some 90, none, none⟩]
        [⟨"B", some 95, none, none⟩, ⟨"C", some 80, none, none⟩] "C" =
      ("(new)", "80 ms", "") ∧
    fnRowStrings [⟨"A", some 100, none, none⟩, ⟨"B", some 90, none, none⟩]
        [⟨"B", some 95, none, none⟩, ⟨"C", some 80, none, none⟩] "B" =
      ("90 ms", "95 ms", "+5 ms (+5.6%)") ∧
    fnRowStrings [⟨"D", none, none, none⟩] [] "D" = ("N/A", "(gone)", "") := by
  decide

/-- A one-record run used to exercise comparison mode with one empty side. -/
def oneRecordRun : Run :=
  [("p", { name := "p", crate_root := none, succ := some true
           verified := some 3, errors := some 0, total_ms := some 1200
           functions := [] })]

/-- C2 counterexample: in comparison mode with an empty old directory and a
non-empty new directory, the program prints no "no files found" message at
all — it renders the comparison summary and top-5 sections instead (missing
old-side entries are tagged, not reported as an empty directory). -/
theorem no_files_message_cex :
    hasNoFilesMsg (mainCompare [] oneRecordRun) = false ∧
      mainCompare [] oneRecordRun =
        [.comparisonSummary (comparisonRows [] oneRecordRun),
         .top5Comparison (top5ComparisonBlocks [] oneRecordRun)] := by
  constructor
  · decide
  · rfl

/-- C2 (amended): in single-run mode an empty directory yields exactly the
distinct "no files found" message and no summary sections, and a non-empty
one yields exactly the two summary sections; in comparison mode the message
appears only when BOTH directories are empty — if either side has records,
both comparison sections are rendered and no message appears. -/
theorem no_files_message_amended :
    (∀ dir, mainSingle dir [] = [.noFilesMsg ("No JSON files found in " ++ dir)]) ∧
    (∀ dir p rest, mainSingle dir (p :: rest) =
      [.projectSummary (singleRows (p :: rest)),
       .top5Single (top5SingleBlocks (p :: rest))]) ∧
    (mainCompare [] [] = [.noFilesMsg "No JSON files found in either directory"]) ∧
    (∀ p oldRest newR, mainCompare (p :: oldRest) newR =
      [.comparisonSummary (comparisonRows (p :: oldRest) newR),
       .top5Comparison (top5ComparisonBlocks (p :: oldRest) newR)]) ∧
    (∀ oldR p newRest, mainCompare oldR (p :: newRest) =
      [.comparisonSummary (comparisonRows oldR (p :: newRest)),
       .top5Comparison (top5ComparisonBlocks oldR (p :: newRest))]) := by
  refine ⟨fun _ => rfl, fun _ _ _ => rfl, rfl, fun _ _ _ => rfl, fun oldR p newRest => ?_⟩
  cases oldR <;> rfl

/-- C6: every rendered entry sequence is sorted ascending by the pair
(display name, stem): the single-run entries of `sorted_entries` and the
merged stems of comparison mode (each keyed by the present side's display
name via `getName`).  Both renderers are pure functions of the Run(s), so
equal inputs render byte-identical output. -/
theorem entries_sorted_by_name_stem :
    (∀ results : Run, List.Sorted pairLe
        ((sorted_entries results).map fun kv => (kv.2.name, kv.1))) ∧
    (∀ oldR newR : Run, List.Sorted pairLe
        ((allStems oldR newR).map fun s => (getName oldR newR s, s))) := by
  constructor
  · intro rs
    haveI : IsTotal (String × ProjectRecord) entryLe := ⟨fun a b => pairLe_total _ _⟩
    haveI : IsTrans (String × ProjectRecord) entryLe := ⟨fun a b c => pairLe_trans _ _ _⟩
    exact List.pairwise_map.mpr (List.sorted_insertionSort entryLe rs)
  · intro oldR newR
    haveI : IsTotal String (stemLe oldR newR) := ⟨fun a b => pairLe_total _ _⟩
    haveI : IsTrans String (stemLe oldR newR) := ⟨fun a b c => pairLe_trans _ _ _⟩
    exact List.pairwise_map.mpr (List.sorted_insertionSort (stemLe oldR newR) _)

/-- C7: the comparison renders exactly one entry per identity present in
either Run — the merged stem list has no duplicates, its set is the union
of the two key sets, and its size is `|old| + |new| - |old ∩ new|`; an
identity present only in the new Run renders status `"(new)"` and one
present only in the old Run renders `"(removed)"`. -/
theorem comparison_identity_pairing (oldR newR : Run) (s t : String)
    (r q : ProjectRecord)
    (ho : (oldR.map Prod.fst).Nodup) (hn : (newR.map Prod.fst).Nodup)
    (hs1 : oldR.lookup s = none) (hs2 : newR.lookup s = some r)
    (ht1 : oldR.lookup t = some q) (ht2 : newR.lookup t = none) :
    (allStems oldR newR).Nodup ∧
      (allStems oldR newR).toFinset =
        (oldR.map Prod.fst).toFinset ∪ (newR.map Prod.fst).toFinset ∧
      (allStems oldR newR).length =
        oldR.length + newR.length -
          ((oldR.map Prod.fst).toFinset ∩ (newR.map Prod.fst).toFinset).card ∧
      (compareRow oldR newR s).status = "(new)" ∧
      (compareRow oldR newR t).status = "(removed)" := by
  have hperm : List.Perm (allStems oldR newR)
      (oldR.map Prod.fst ++ newR.map Prod.fst).dedup :=
    List.perm_insertionSort _ _
  have hdf : (oldR.map Prod.fst ++ newR.map Prod.fst).dedup.toFinset =
      (oldR.map Prod.fst ++ newR.map Prod.fst).toFinset :=
    List.toFinset.ext fun _ => List.mem_dedup
  refine ⟨hperm.nodup_iff.mpr (List.nodup_dedup _), ?_, ?_, ?_, ?_⟩
  · rw [List.toFinset_eq_of_perm _ _ hperm, hdf, List.toFinset_append]
  · have h1 := hperm.length_eq
    have h2 := List.card_toFinset (oldR.map Prod.fst ++ newR.map Prod.fst)
    have h3 := Finset.card_union_add_card_inter
      (oldR.map Prod.fst).toFinset (newR.map Prod.fst).toFinset
    have h4 := List.toFinset_card_of_nodup ho
    have h5 := List.toFinset_card_of_nodup hn
    rw [List.toFinset_append] at h2
    rw [List.length_map] at h4
    rw [List.length_map] at h5
    omega
  · simp [compareRow, hs1, hs2]
  · simp [compareRow, ht1, ht2]

/-- A minimal record with a given display name, for concrete witnesses. -/
def mkRec (nm : String) : ProjectRecord :=
  { name := nm, crate_root := none, succ := none
    verified := none, errors := none, total_ms := none, functions := [] }

/-- Concrete old Run for the C7 witness. -/
def c7old : Run := [("p1", mkRec "alpha"), ("p2", mkRec "beta")]

/-- Concrete new Run for the C7 witness: shares stem `"p2"` with `c7old`. -/
def c7new : Run := [("p2", mkRec "beta"), ("p3", mkRec "gamma")]

/-- C7 witness: two overlapping two-record Runs; merged size 2 + 2 - 1,
`"p3"` renders `"(new)"`, `"p1"` renders `"(removed)"`. -/
theorem comparison_identity_pairing_witness :
    (c7old.map Prod.fst).Nodup ∧ (c7new.map Prod.fst).Nodup ∧
      c7old.lookup "p3" = none ∧ c7new.lookup "p3" = some (mkRec "gamma") ∧
      c7old.lookup "p1" = some (mkRec "alpha") ∧ c7new.lookup "p1" = none ∧
      ((allStems c7old c7new).Nodup ∧
        (allStems c7old c7new).toFinset =
          (c7old.map Prod.fst).toFinset ∪ (c7new.map Prod.fst).toFinset ∧
        (allStems c7old c7new).length =
          c7old.length + c7new.length -
            ((c7old.map Prod.fst).toFinset ∩ (c7new.map Prod.fst).toFinset).card ∧
        (compareRow c7old c7new "p3").status = "(new)" ∧
        (compareRow c7old c7new "p1").status = "(removed)") :=
  ⟨by decide, by decide, by decide, by decide, by decide, by decide,
    comparison_identity_pairing c7old c7new "p3" "p1" (mkRec "gamma") (mkRec "alpha")
      (by decide) (by decide) (by decide) (by decide) (by decide) (by decide)⟩
